import Mathlib

/-!
Verification of the mapchete tiled-storage core: a shallow embedding of the
output-metadata registry, the GeoJSON / PNG / PNG-hillshade output drivers,
the best-zoom estimator and the web tile server error policy, with theorems
settling the specification claims about them.
-/

set_option maxHeartbeats 1000000

deriving instance DecidableEq for Except

namespace Mapchete

/-! ## Dictionaries (Python dict as ordered association list) -/

/-- Affine transform of a tile (six coefficients), kept abstract as rationals. -/
structure Aff where
  a : ℚ
  b : ℚ
  c : ℚ
  d : ℚ
  e : ℚ
  f : ℚ
deriving DecidableEq, Repr

/-- Grid definition of a tile pyramid as serialized into `metadata.json`
(`params_to_dump` reads these attributes off `params["type"]`). -/
structure GridDefinition where
  type : String
  shape : List Nat
  bounds : List ℚ
  left : ℚ
  bottom : ℚ
  right : ℚ
  top : ℚ
  is_global : Bool
  srid : Nat
  crs : String
deriving DecidableEq, Repr

/-- Values stored in configuration dictionaries. -/
inductive Value where
  | vStr (s : String)
  | vNat (n : Nat)
  | vInt (z : Int)
  | vBool (b : Bool)
  | vGrid (g : GridDefinition)
  | vAff (a : Aff)
deriving DecidableEq, Repr

/-- A Python dictionary with string keys, as an ordered association list. -/
abbrev Dict (α : Type) : Type := List (String × α)

/-- Dictionary lookup (`d[k]` / `d.get(k)`). -/
def dlookup {α : Type} : Dict α → String → Option α
  | [], _ => none
  | (k, v) :: rest, key => if k = key then some v else dlookup rest key

/-- Dictionary update of a single key (`d[k] = v` / `d.update(k=v)`). -/
def dset {α : Type} : Dict α → String → α → Dict α
  | [], key, v => [(key, v)]
  | (k, w) :: rest, key, v =>
      if k = key then (k, v) :: rest else (k, w) :: dset rest key v

/-- Dictionary key removal with default (`d.pop(k, None)`). -/
def dpop {α : Type} (d : Dict α) (key : String) : Dict α :=
  d.filter (fun kv => decide (kv.fst ≠ key))

/-! ## Output Metadata Registry (mapchete.io.write_output_metadata / params_to_dump) -/

/-- Modelled from the spec: the grid definitions of the external tilematrix
`TilePyramid` (`geodetic` or `mercator`), used by `params_to_dump` when
`params["type"]` is still a plain string.  Field values follow the spec's
data model (geodetic: global WGS84 bounds, SRID 4326; mercator: global
spherical-mercator bounds, SRID 3857). -/
def TilePyramid_grid (name : String) : GridDefinition :=
  if name = ("mercator") then
    { type := ("mercator")
      shape := [1, 1]
      bounds := [-(200375083427892 / 10000000 : ℚ), -(200375083427892 / 10000000 : ℚ),
                 (200375083427892 / 10000000 : ℚ), (200375083427892 / 10000000 : ℚ)]
      left := -(200375083427892 / 10000000 : ℚ)
      bottom := -(200375083427892 / 10000000 : ℚ)
      right := (200375083427892 / 10000000 : ℚ)
      top := (200375083427892 / 10000000 : ℚ)
      is_global := true
      srid := 3857
      crs := ("EPSG:3857") }
  else
    { type := ("geodetic")
      shape := [1, 2]
      bounds := [(-180 : ℚ), (-90 : ℚ), (180 : ℚ), (90 : ℚ)]
      left := (-180 : ℚ)
      bottom := (-90 : ℚ)
      right := (180 : ℚ)
      top := (90 : ℚ)
      is_global := true
      srid := 4326
      crs := ("EPSG:4326") }

/-- The `pyramid` section of the persisted `metadata.json` record. -/
structure PyramidRecord where
  grid : GridDefinition
  metatiling : Value
  pixelbuffer : Value
deriving DecidableEq, Repr

/-- The canonical output metadata record built by `params_to_dump` and
persisted at `<output-path>/metadata.json`. -/
structure OutMetadata where
  pyramid : PyramidRecord
  driver : Dict Value
deriving DecidableEq, Repr

/-- `mapchete.io.params_to_dump`: serialize output parameters into the
canonical metadata record.  `params["type"]` may still be a pyramid-name
string, in which case the grid is taken from `TilePyramid(...).grid`; the
`driver` section keeps every parameter except `path`, `type`, `pixelbuffer`
and `metatiling`.  Returns `none` when `params["type"]` is missing or has a
type on which the attribute accesses would fail. -/
def params_to_dump (params : Dict Value) : Option OutMetadata :=
  match dlookup params ("type") with
  | some (Value.vGrid g) =>
      some
        { pyramid :=
            { grid := g
              metatiling := (dlookup params ("metatiling")).getD (Value.vNat 1)
              pixelbuffer := (dlookup params ("pixelbuffer")).getD (Value.vNat 0) }
          driver :=
            params.filter (fun kv =>
              decide (kv.fst ∉ [("path" : String), ("type" : String),
                ("pixelbuffer" : String), ("metatiling" : String)])) }
  | some (Value.vStr s) =>
      some
        { pyramid :=
            { grid := TilePyramid_grid s
              metatiling := (dlookup params ("metatiling")).getD (Value.vNat 1)
              pixelbuffer := (dlookup params ("pixelbuffer")).getD (Value.vNat 0) }
          driver :=
            params.filter (fun kv =>
              decide (kv.fst ∉ [("path" : String), ("type" : String),
                ("pixelbuffer" : String), ("metatiling" : String)])) }
  | _ => none

/-- `mapchete.io.write_output_metadata`, with the filesystem abstracted as the
current contents of `<path>/metadata.json` (`none` = the file does not
exist).  Returns the new contents, or an error: a `MapcheteConfigError` when
the existing record's `pyramid` section or `driver["format"]` entry disagrees
with the current configuration (the Python comparison short-circuits on the
pyramid before indexing `format`, and raises `KeyError` if `format` is
absent). -/
def write_output_metadata (store : Option OutMetadata) (params : Dict Value) :
    Except String (Option OutMetadata) :=
  if (dlookup params ("path")).isSome then
    match store with
    | some existing =>
        match params_to_dump params with
        | some current =>
            if existing.pyramid ≠ current.pyramid then
              Except.error ("MapcheteConfigError: process output definition differs from existing output")
            else
              match dlookup existing.driver ("format"), dlookup current.driver ("format") with
              | some ef, some cf =>
                  if ef ≠ cf then
                    Except.error ("MapcheteConfigError: process output definition differs from existing output")
                  else
                    Except.ok store
              | _, _ => Except.error ("KeyError: format")
        | none => Except.error ("TypeError: invalid type parameter")
    | none =>
        match params_to_dump params with
        | some dump_params => Except.ok (some dump_params)
        | none => Except.error ("TypeError: invalid type parameter")
  else
    Except.ok store

/-! ## Tile addressing and storage backend -/

/-- A buffered tile: `(zoom, row, col)` identity plus the derived attributes
the drivers read off it (pixel width/height, affine transform, CRS). -/
structure BufferedTile where
  zoom : Nat
  row : Nat
  col : Nat
  width : Nat
  height : Nat
  affine : Aff
  crs : String
deriving DecidableEq, Repr

/-- `tile.shape` as `(height, width)`. -/
def BufferedTile.shape (t : BufferedTile) : Nat × Nat := (t.height, t.width)

/-- `os.path.join(path, str(zoom), str(row), str(col) + extension)` for a
relative layout: the deterministic per-tile path used by every driver's
`get_path`. -/
def tile_path (base : String) (ext : String) (t : BufferedTile) : String :=
  base ++ ("/") ++ toString t.zoom ++ ("/") ++ toString t.row ++ ("/")
    ++ toString t.col ++ ext

/-- `OutputData.get_path` of the GeoJSON driver (`file_extension = ".geojson"`). -/
def gj_get_path (base : String) (t : BufferedTile) : String :=
  tile_path base (".geojson") t

/-- `OutputData.get_path` of the PNG and PNG-hillshade drivers
(`file_extension = ".png"`). -/
def png_get_path (base : String) (t : BufferedTile) : String :=
  tile_path base (".png") t

/-- What the storage backend holds at one path: a payload, nothing, or a
failing backend (permission, network, malformed URI) with its error
message. -/
inductive BackendFile (α : Type) where
  | found (d : α)
  | absent
  | failure (msg : String)
deriving DecidableEq, Repr

/-- Modelled from the spec: opening a path with the external fiona/rasterio
reader.  A missing file raises a `DriverError`/`RasterioIOError` whose
message contains `No such file or directory` (local GDAL wording; remote
paths use `does not exist in the file system`); any other backend failure
raises with its own message. -/
def backendOpen {α : Type} (backend : String → BackendFile α) (p : String) :
    Except String α :=
  match backend p with
  | BackendFile.found d => Except.ok d
  | BackendFile.absent => Except.error (p ++ (": No such file or directory"))
  | BackendFile.failure msg => Except.error msg

/-- Whether `pat` occurs at the head of `l`. -/
def charsPre : List Char → List Char → Bool
  | [], _ => true
  | _ :: _, [] => false
  | a :: as, b :: bs => a = b && charsPre as bs

/-- Whether `pat` occurs anywhere inside `l`. -/
def charsSub (pat : List Char) : List Char → Bool
  | [] => charsPre pat []
  | c :: cs => charsPre pat (c :: cs) || charsSub pat cs

/-- Python's `pat in s` substring test. -/
def strContains (s pat : String) : Bool :=
  charsSub pat.toList s.toList

/-- The catch-and-string-match test both raster and vector `read` methods run
on a caught backend exception to recognize "file not found". -/
def isNotFoundMsg (e : String) : Bool :=
  strContains e ("does not exist in the file system")
    || strContains e ("No such file or directory")

/-! ## GeoJSON output driver (mapchete.formats.default.geojson) -/

/-- A vector feature, kept opaque. -/
abbrev Feature : Type := String

/-- The persisted tile files of one output location: path ↦ feature list. -/
abbrev GJStore : Type := List (String × List Feature)

/-- Store update at one path (the file is overwritten as a whole). -/
def sinsert {α : Type} : List (String × α) → String → α → List (String × α)
  | [], key, v => [(key, v)]
  | (k, w) :: rest, key, v =>
      if k = key then (k, v) :: rest else (k, w) :: sinsert rest key v

/-- View a store as a storage backend with no failing paths. -/
def storeBackend {α : Type} (s : List (String × α)) : String → BackendFile α :=
  fun p =>
    match dlookup s p with
    | some d => BackendFile.found d
    | none => BackendFile.absent

/-- `OutputData.empty` of the GeoJSON driver: the empty feature list. -/
def gj_empty : List Feature := []

/-- `OutputData.read` of the GeoJSON driver: open the tile's path with fiona;
on a `DriverError` containing one of the two "missing file" substrings return
`empty(output_tile)`, otherwise re-raise. -/
def gj_read (backend : String → BackendFile (List Feature)) (base : String)
    (output_tile : BufferedTile) : Except String (List Feature) :=
  match backendOpen backend (gj_get_path base output_tile) with
  | Except.ok fs => Except.ok fs
  | Except.error e =>
      if isNotFoundMsg e then Except.ok gj_empty else Except.error e

/-- `OutputData.write` of the GeoJSON driver over an abstract store.
`intersecting` stands for `self.pyramid.intersecting(process_tile)` and
`write_vector_window` (mapchete.io.vector, not under src/) is abstracted as
`clip`, clipping the features to one output tile before persisting them at
that tile's path.  Writing `None` or an empty feature list returns before
touching the store. -/
def gj_write (store : GJStore) (base : String)
    (intersecting : List BufferedTile)
    (clip : List Feature → BufferedTile → List Feature)
    (data : Option (List Feature)) : Except String GJStore :=
  match data with
  | none => Except.ok store
  | some d =>
      if d.length = 0 then Except.ok store
      else
        Except.ok
          (intersecting.foldl
            (fun st t => sinsert st (gj_get_path base t) (clip d t)) store)

/-! ## PNG output driver (mapchete.formats.default.png) -/

/-- One raster band: numeric values paired with a boolean no-data mask of the
same shape. -/
structure MaskedBand where
  data : List (List Int)
  mask : List (List Bool)
deriving DecidableEq, Repr

/-- Mask and data agree in shape (the data-model invariant on masked grids). -/
def bandShapeOk (b : MaskedBand) : Bool :=
  b.data.length = b.mask.length
    && (b.data.zip b.mask).all (fun rm => rm.fst.length = rm.snd.length)

/-- A band is empty when its mask is `True` everywhere. -/
def bandAllMasked (b : MaskedBand) : Bool :=
  b.mask.all (fun row => row.all (fun x => x))

/-- Replace the masked entries of a band's data plane by `nodata`. -/
def bandFill (nodata : Int) (b : MaskedBand) : List (List Int) :=
  (b.data.zip b.mask).map
    (fun rm => (rm.fst.zip rm.snd).map (fun vm => if vm.snd then nodata else vm.fst))

/-- Fill the masked entries with `nodata`, then cast to uint8. -/
def planeOf (nodata : Int) (b : MaskedBand) : List (List Int) :=
  (bandFill nodata b).map (List.map (fun v => v.emod 256))

/-- Modelled from the spec: `prepare_array` (mapchete.io.raster, not under
src/) normalizes a payload into a 3D masked stack of the requested dtype;
masked entries read as the fill nodata value (the function's default fill is
`0`) and every value is cast to uint8. -/
def prepare_array_u8 (nodata : Int) (data : List MaskedBand) : List MaskedBand :=
  data.map (fun b => { data := planeOf nodata b, mask := b.mask })

/-- `np.where(plane == nodata, 0, 255)`: the alpha plane derived from a data
plane against the nodata value. -/
def alphaOf (nodata : Int) (plane : List (List Int)) : List (List Int) :=
  plane.map (List.map (fun v => if v = nodata then 0 else 255))

/-- The module-level `PNG_DEFAULT_PROFILE` dictionary of the PNG driver. -/
def PNG_DEFAULT_PROFILE : Dict Value :=
  [(("dtype"), Value.vStr ("uint8")), (("driver"), Value.vStr ("PNG")),
   (("count"), Value.vNat 4), (("nodata"), Value.vInt 0)]

/-- `self.nodata = output_params.get("nodata", PNG_DEFAULT_PROFILE["nodata"])`
of the PNG driver. -/
def png_nodata (output_params : Dict Value) : Int :=
  match dlookup output_params ("nodata") with
  | some (Value.vInt z) => z
  | some (Value.vNat n) => (n : Int)
  | _ => 0

/-- `OutputData._prepare_array_for_png`: normalize to uint8 bands, then
dispatch on the band count; 1 band → gray replicated into R,G,B with alpha
from band 1 versus nodata; 2 → gray + explicit alpha; 3 → R,G,B + alpha from
band 1 versus nodata; 4 → pass-through; anything else → `TypeError`. -/
def png_prepare_array_for_png (nodata : Int) (data : List MaskedBand) :
    Except String (List (List (List Int))) :=
  match prepare_array_u8 0 data with
  | [b0] => Except.ok [b0.data, b0.data, b0.data, alphaOf nodata b0.data]
  | [b0, b1] => Except.ok [b0.data, b0.data, b0.data, b1.data]
  | [b0, b1, b2] => Except.ok [b0.data, b1.data, b2.data, alphaOf nodata b0.data]
  | [b0, b1, b2, b3] => Except.ok [b0.data, b1.data, b2.data, b3.data]
  | d => Except.error (("invalid number of bands: ") ++ toString d.length)

/-- An all-zero `height × width` integer matrix (`ma.zeros`). -/
def zerosM (height width : Nat) : List (List Int) :=
  List.replicate height (List.replicate width 0)

/-- Extract a `Nat` out of a dictionary value (other shapes would fail the
source's shape construction and are outside the model). -/
def valNat : Option Value → Nat
  | some (Value.vNat n) => n
  | _ => 0

/-- `OutputData.empty` of the PNG driver: a `(bands, height, width)` stack of
zeros whose mask is `ma.zeros`, i.e. `False` everywhere; the band count is
`output_params["bands"]` when present, else the module profile's `count`. -/
def png_empty (glob : Dict Value) (output_params : Dict Value)
    (process_tile : BufferedTile) : List MaskedBand :=
  let bands : Nat :=
    if (dlookup output_params ("bands")).isSome then
      valNat (dlookup output_params ("bands"))
    else valNat (dlookup glob ("count"))
  List.replicate bands
    { data := zerosM process_tile.height process_tile.width
      mask := List.replicate process_tile.height
        (List.replicate process_tile.width false) }

/-- The persisted tile files of a PNG output location: path ↦ band stack. -/
abbrev PNGStore : Type := List (String × List MaskedBand)

/-- `OutputData.read` of the PNG driver: open the tile's path with rasterio;
on a `RasterioIOError` containing one of the two "missing file" substrings
return `empty(output_tile)`, otherwise re-raise. -/
def png_read (backend : String → BackendFile (List MaskedBand))
    (glob : Dict Value) (output_params : Dict Value) (base : String)
    (output_tile : BufferedTile) : Except String (List MaskedBand) :=
  match backendOpen backend (png_get_path base output_tile) with
  | Except.ok d => Except.ok d
  | Except.error e =>
      if isNotFoundMsg e then Except.ok (png_empty glob output_params output_tile)
      else Except.error e

/-- `data.mask.all()` over a band stack. -/
def maskAllStack (md : List MaskedBand) : Bool :=
  md.all bandAllMasked

/-- `OutputData.write` of the PNG driver over an abstract store: build the
RGBA stack, mask it where it equals the nodata value, and skip the write
entirely when that mask is `True` everywhere; otherwise persist a resampled
window (`write_raster_window`, mapchete.io.raster, abstracted as `wrw`) at
every intersecting output tile's path. -/
def png_write (wrw : List MaskedBand → BufferedTile → List MaskedBand)
    (store : PNGStore) (nodata : Int) (base : String)
    (intersecting : List BufferedTile) (data : List MaskedBand) :
    Except String PNGStore :=
  match png_prepare_array_for_png nodata data with
  | Except.error e => Except.error e
  | Except.ok rgba =>
      let masked : List MaskedBand :=
        rgba.map (fun plane =>
          { data := plane
            mask := plane.map (List.map (fun v => decide (v = nodata))) })
      if maskAllStack masked then Except.ok store
      else
        Except.ok
          (intersecting.foldl
            (fun st t => sinsert st (png_get_path base t) (wrw masked t)) store)

/-- `OutputData.profile` of the PNG driver.  The source binds
`dst_metadata = PNG_DEFAULT_PROFILE` — the module-level dictionary itself,
not a copy — and then pops/updates it in place.  The module state is made
explicit: `glob` is the dictionary's current contents and the result is the
returned dictionary paired with the new module state (one and the same
dictionary). -/
def png_profile (glob : Dict Value) (tile : Option BufferedTile)
    (output_params : Dict Value) : Dict Value × Dict Value :=
  let d0 := dpop glob ("transform")
  let d1 :=
    match tile with
    | some t =>
        dset (dset (dset (dset d0 ("width") (Value.vNat t.width)) ("height")
          (Value.vNat t.height)) ("affine") (Value.vAff t.affine)) ("crs")
          (Value.vStr t.crs)
    | none => d0
  let d2 :=
    match dlookup output_params ("count") with
    | some c => dset d1 ("count") c
    | none => d1
  (d2, d2)

/-! ## PNG-hillshade output driver (mapchete.formats.default.png_hillshade) -/

/-- `self.old_band_num` of the hillshade driver: the configured value when the
key is present (non-boolean values follow Python truthiness), else `False`. -/
def hs_old_band_num (output_params : Dict Value) : Bool :=
  match dlookup output_params ("old_band_num") with
  | some (Value.vBool b) => b
  | some (Value.vNat n) => decide (n ≠ 0)
  | some (Value.vInt z) => decide (z ≠ 0)
  | some _ => true
  | none => false

/-- The profile band count picked in `__init__`: 4 whenever `old_band_num` is
present in the configuration, else the default 2. -/
def hs_profile_count (output_params : Dict Value) : Nat :=
  if (dlookup output_params ("old_band_num")).isSome then 4 else 2

/-- `OutputData._prepare_array` of the hillshade driver: invert the input
(`-(data - 255)`, cast unmasked to uint8), stack it under zero bands — three
zero bands for the legacy 4-band layout, one for the 2-band gray+alpha
layout — and re-mask the stack at nodata 255. -/
def hs_prepare_array (old_band_num : Bool) (data : List (List Int)) :
    List MaskedBand :=
  let d0 : List (List Int) := data.map (List.map (fun v => (255 - v).emod 256))
  let zs : List (List Int) := d0.map (List.map (fun _ => 0))
  let stacked : List (List (List Int)) :=
    if old_band_num then [zs, zs, zs, d0] else [zs, d0]
  stacked.map (fun plane =>
    { data := plane, mask := plane.map (List.map (fun v => decide (v = 255))) })

/-- `OutputData.empty` of the hillshade driver:
`ma.masked_values(np.zeros(shape), 0)`, i.e. zeros masked everywhere. -/
def hs_empty (process_tile : BufferedTile) : MaskedBand :=
  { data := zerosM process_tile.height process_tile.width
    mask := List.replicate process_tile.height
      (List.replicate process_tile.width true) }

/-- The plain planes of a band stack as persisted in a PNG file. -/
def planesOf (l : List MaskedBand) : List (List (List Int)) :=
  l.map (fun b => b.data)

/-- `OutputData.read` of the hillshade driver: open the tile's path and read
band 4 for the legacy 4-band layout, band 2 for the 2-band layout (rasterio's
1-based `src.read(n)`), masking values equal to 0; a missing file yields
`empty(output_tile)`, other errors re-raise. -/
def hs_read (backend : String → BackendFile (List (List (List Int))))
    (old_band_num : Bool) (base : String) (output_tile : BufferedTile) :
    Except String MaskedBand :=
  match backendOpen backend (png_get_path base output_tile) with
  | Except.ok planes =>
      match planes.get? ((if old_band_num then 4 else 2) - 1) with
      | some p =>
          Except.ok { data := p, mask := p.map (List.map (fun v => decide (v = 0))) }
      | none => Except.error ("IndexError: band index out of range")
  | Except.error e =>
      if isNotFoundMsg e then Except.ok (hs_empty output_tile) else Except.error e

/-! ## Best-Zoom Estimator (mapchete.io.get_best_zoom_level) -/

/-- The width/height-weighted average ground resolution computed by
`get_best_zoom_level` from the reprojected bounds differences and the source
raster's pixel dimensions. -/
def avg_resolution (x_dif y_dif : ℚ) (width height : Nat) : ℚ :=
  (x_dif / (width : ℚ)) * ((width : ℚ) / ((width : ℚ) + (height : ℚ)))
    + (y_dif / (height : ℚ)) * ((height : ℚ) / ((width : ℚ) + (height : ℚ)))

/-- The scan loop of `get_best_zoom_level`: walk the zoom levels in order and
return `zoom - 1` at the first zoom whose pixel size is ≤ the average
resolution (`None` when no zoom qualifies). -/
def best_zoom_loop (pixel_x_size : Nat → ℚ) (avg : ℚ) : List Nat → Option Int
  | [] => none
  | z :: zs =>
      if pixel_x_size z ≤ avg then some ((z : Int) - 1)
      else best_zoom_loop pixel_x_size avg zs

/-- `mapchete.io.get_best_zoom_level` with the external raster/pyramid inputs
abstracted: `pixel_x_size` is the target pyramid's per-zoom pixel size and
`avg` the already-computed average resolution; the source scans
`range(0, 40)`. -/
def get_best_zoom_level (pixel_x_size : Nat → ℚ) (avg : ℚ) : Option Int :=
  best_zoom_loop pixel_x_size avg (List.range 40)

/-! ## Web Tile Server (mapchete.cli.default.serve) -/

/-- What `for_web` hands back for the HTTP framing: an in-memory image
container, a serializable feature sequence, or anything else. -/
inductive WebPayload where
  | memfile (body : List Nat)
  | flist (l : List Feature)
  | other
deriving DecidableEq, Repr

/-- The HTTP response of the tile endpoint. -/
inductive TileHttp where
  | imageResponse (body : List Nat) (mime : String) (no_write : Bool)
  | jsonResponse (l : List Feature) (mime : String) (no_write : Bool)
  | serverError
deriving DecidableEq, Repr

/-- `_valid_tile_response`: dispatch on the rendered payload's shape — a
`MemoryFile` becomes an image response, a list a JSON response, anything
else raises `TypeError`; both responses carry the driver MIME type and the
do-not-cache directive. -/
def valid_tile_response (out : WebPayload × String) : Except String TileHttp :=
  match out.fst with
  | WebPayload.memfile body => Except.ok (TileHttp.imageResponse body out.snd true)
  | WebPayload.flist l => Except.ok (TileHttp.jsonResponse l out.snd true)
  | WebPayload.other => Except.error ("TypeError: invalid response type for web")

/-- The body of `_tile_response`'s `try` block: obtain the raw output
(`mp.get_raw_output`), render it (`for_web`) and frame it
(`_valid_tile_response`); each step may raise. -/
def tile_render {α : Type} (raw : Except String α)
    (for_web : α → Except String (WebPayload × String)) :
    Except String TileHttp := do
  let d ← raw
  let out ← for_web d
  valid_tile_response out

/-- `_tile_response`: any exception from the `try` block is logged and, with
the debug flag unset, answered as HTTP 500 (`abort(500)`); with the debug
flag set the exception is re-raised. -/
def tile_response {α : Type} (debug : Bool) (raw : Except String α)
    (for_web : α → Except String (WebPayload × String)) :
    Except String TileHttp :=
  match tile_render raw for_web with
  | Except.ok r => Except.ok r
  | Except.error e =>
      if debug then Except.error e else Except.ok TileHttp.serverError

/-- All entries of an integer matrix are zero. -/
def AllZero (p : List (List Int)) : Prop :=
  ∀ row ∈ p, ∀ v ∈ row, v = 0

/-! ## Helper lemmas -/

theorem charsSub_append_right (pat l₁ l₂ : List Char)
    (h : charsSub pat l₂ = true) : charsSub pat (l₁ ++ l₂) = true := by
  induction l₁ with
  | nil => simpa using h
  | cons c cs ih =>
      simp only [List.cons_append, charsSub, Bool.or_eq_true]
      exact Or.inr ih

theorem isNotFoundMsg_absent (p : String) :
    isNotFoundMsg (p ++ (": No such file or directory")) = true := by
  have h : charsSub (("No such file or directory" : String).toList)
      ((": No such file or directory" : String).toList) = true := by decide
  have h2 := charsSub_append_right (("No such file or directory" : String).toList)
    p.toList ((": No such file or directory" : String).toList) h
  simp only [isNotFoundMsg, Bool.or_eq_true, strContains]
  refine Or.inr ?_
  have hl : (p ++ (": No such file or directory" : String)).toList
      = p.toList ++ ((": No such file or directory" : String)).toList := rfl
  rw [hl]
  exact h2

theorem dlookup_dset_self {α : Type} (d : Dict α) (k : String) (v : α) :
    dlookup (dset d k v) k = some v := by
  induction d with
  | nil => simp [dset, dlookup]
  | cons hd tl ih =>
      obtain ⟨k0, v0⟩ := hd
      by_cases h : k0 = k
      · simp [dset, h, dlookup]
      · simp [dset, h, dlookup, ih]

theorem dlookup_dset_ne {α : Type} (d : Dict α) (k k' : String) (v : α)
    (h : k' ≠ k) : dlookup (dset d k v) k' = dlookup d k' := by
  have h' : ¬ (k = k') := fun hh => h hh.symm
  induction d with
  | nil => simp [dset, dlookup, h']
  | cons hd tl ih =>
      obtain ⟨k0, v0⟩ := hd
      by_cases hk : k0 = k
      · subst hk
        simp [dset, dlookup, h']
      · simp only [dset, hk, if_false, dlookup]
        by_cases hk' : k0 = k'
        · simp [hk']
        · simp [hk', ih]

theorem dlookup_dpop_ne {α : Type} (d : Dict α) (k k' : String)
    (h : k' ≠ k) : dlookup (dpop d k) k' = dlookup d k' := by
  induction d with
  | nil => simp [dpop, dlookup]
  | cons hd tl ih =>
      obtain ⟨k0, v0⟩ := hd
      by_cases hk : k0 = k
      · subst hk
        have h' : ¬ (k0 = k') := fun hh => h hh.symm
        have hfil : dpop ((k0, v0) :: tl) k0 = dpop tl k0 := by
          simp [dpop, List.filter_cons]
        rw [hfil, ih]
        simp [dlookup, h']
      · have hfil : dpop ((k0, v0) :: tl) k = (k0, v0) :: dpop tl k := by
          simp [dpop, List.filter_cons, hk]
        rw [hfil]
        by_cases hk' : k0 = k'
        · simp [dlookup, hk']
        · simp [dlookup, hk', ih]

theorem best_zoom_loop_range' (pixel_x_size : Nat → ℚ) (avg : ℚ) :
    ∀ (n s z : Nat), s ≤ z → z < s + n → pixel_x_size z ≤ avg →
    (∀ y, s ≤ y → y < z → avg < pixel_x_size y) →
    best_zoom_loop pixel_x_size avg (List.range' s n) = some ((z : Int) - 1) := by
  intro n
  induction n with
  | zero => intro s z hs hz _ _; omega
  | succ m ih =>
      intro s z hs hz hle hlt
      rw [List.range'_succ]
      by_cases hcase : z = s
      · subst hcase
        simp [best_zoom_loop, hle]
      · have hslt : avg < pixel_x_size s := hlt s le_rfl (by omega)
        have : ¬ pixel_x_size s ≤ avg := not_le_of_lt hslt
        simp only [best_zoom_loop, this, if_false]
        exact ih (s + 1) z (by omega) (by omega) hle
          (fun y hy1 hy2 => hlt y (by omega) hy2)

theorem best_zoom_loop_mem (pixel_x_size : Nat → ℚ) (avg : ℚ) :
    ∀ (l : List Nat) (r : Int), best_zoom_loop pixel_x_size avg l = some r →
    ∃ z ∈ l, r = (z : Int) - 1 ∧ pixel_x_size z ≤ avg := by
  intro l
  induction l with
  | nil => intro r h; simp [best_zoom_loop] at h
  | cons z zs ih =>
      intro r h
      simp only [best_zoom_loop] at h
      by_cases hz : pixel_x_size z ≤ avg
      · refine ⟨z, by simp, ?_, hz⟩
        simp [hz] at h
        omega
      · simp only [hz, if_false] at h
        obtain ⟨w, hw, hr, hle⟩ := ih r h
        exact ⟨w, by simp [hw], hr, hle⟩

theorem allZero_planeOf (b : MaskedBand) (hm : bandAllMasked b = true) :
    AllZero (planeOf 0 b) := by
  intro row hrow v hv
  simp only [planeOf, bandFill, List.map_map, List.mem_map] at hrow
  obtain ⟨rm, hrm, hrow_eq⟩ := hrow
  subst hrow_eq
  simp only [Function.comp_apply, List.map_map, List.mem_map] at hv
  obtain ⟨vm, hvm, hv_eq⟩ := hv
  subst hv_eq
  have hmrow : rm.snd ∈ b.mask := (List.of_mem_zip hrm).2
  have hmk : vm.snd = true := by
    have hrow_all := List.all_eq_true.mp hm rm.snd hmrow
    exact List.all_eq_true.mp hrow_all vm.snd (List.of_mem_zip hvm).2
  simp only [hmk, if_true]
  decide

theorem allZero_alphaOf (p : List (List Int)) (h : AllZero p) :
    AllZero (alphaOf 0 p) := by
  intro row hrow v hv
  simp only [alphaOf, List.mem_map] at hrow
  obtain ⟨r0, hr0, hrow_eq⟩ := hrow
  subst hrow_eq
  simp only [List.mem_map] at hv
  obtain ⟨v0, hv0, hv_eq⟩ := hv
  subst hv_eq
  have : v0 = 0 := h r0 hr0 v0 hv0
  simp [this]

theorem maskRow_of_allZero (p : List (List Int)) (h : AllZero p) :
    (p.map (List.map (fun v => decide (v = (0 : Int))))).all
      (fun row => row.all (fun x => x)) = true := by
  rw [List.all_eq_true]
  intro row hrow
  simp only [List.mem_map] at hrow
  obtain ⟨r0, hr0, hrow_eq⟩ := hrow
  subst hrow_eq
  rw [List.all_eq_true]
  intro x hx
  simp only [List.mem_map] at hx
  obtain ⟨v0, hv0, hx_eq⟩ := hx
  subst hx_eq
  have : v0 = 0 := h r0 hr0 v0 hv0
  simp [this]

/-! ## Claim theorems -/

/-- C2: for every output tile whose backing file is absent on the storage
backend, the driver's `read(output_tile)` returns exactly the driver's
`empty(output_tile)` value (the GeoJSON driver's `[]`, the PNG driver's
unmasked zero stack) and never raises; every storage failure whose message is
not the backend's "not found" wording propagates to the caller unchanged. -/
theorem c2_read_not_found_mapping
    (bg : String → BackendFile (List Feature))
    (bp : String → BackendFile (List MaskedBand))
    (glob output_params : Dict Value) (base : String) (t : BufferedTile)
    (msg : String) :
    (bg (gj_get_path base t) = BackendFile.absent →
      gj_read bg base t = Except.ok gj_empty) ∧
    (bg (gj_get_path base t) = BackendFile.failure msg →
      isNotFoundMsg msg = false → gj_read bg base t = Except.error msg) ∧
    (bp (png_get_path base t) = BackendFile.absent →
      png_read bp glob output_params base t
        = Except.ok (png_empty glob output_params t)) ∧
    (bp (png_get_path base t) = BackendFile.failure msg →
      isNotFoundMsg msg = false →
      png_read bp glob output_params base t = Except.error msg) := by
  refine ⟨?_, ?_, ?_, ?_⟩
  · intro h
    simp [gj_read, backendOpen, h, isNotFoundMsg_absent]
  · intro h hnf
    simp [gj_read, backendOpen, h, hnf]
  · intro h
    simp [png_read, backendOpen, h, isNotFoundMsg_absent]
  · intro h hnf
    simp [png_read, backendOpen, h, hnf]

/-- Witness for C2 at a concrete tile, store and failure message. -/
theorem c2_read_not_found_mapping_witness :
    gj_read (fun _ => BackendFile.absent) ("out")
      ⟨5, 3, 7, 256, 256, ⟨1, 0, 0, 0, 1, 0⟩, ("EPSG:4326")⟩ = Except.ok gj_empty ∧
    gj_read (fun _ => BackendFile.failure ("permission denied")) ("out")
      ⟨5, 3, 7, 256, 256, ⟨1, 0, 0, 0, 1, 0⟩, ("EPSG:4326")⟩
      = Except.error ("permission denied") ∧
    png_read (fun _ => BackendFile.absent) PNG_DEFAULT_PROFILE [] ("out")
      ⟨5, 3, 7, 256, 256, ⟨1, 0, 0, 0, 1, 0⟩, ("EPSG:4326")⟩
      = Except.ok (png_empty PNG_DEFAULT_PROFILE []
          ⟨5, 3, 7, 256, 256, ⟨1, 0, 0, 0, 1, 0⟩, ("EPSG:4326")⟩) := by
  refine ⟨?_, ?_, ?_⟩
  · exact (c2_read_not_found_mapping (fun _ => BackendFile.absent)
      (fun _ => BackendFile.absent) PNG_DEFAULT_PROFILE [] ("out")
      ⟨5, 3, 7, 256, 256, ⟨1, 0, 0, 0, 1, 0⟩, ("EPSG:4326")⟩ ("")).1 rfl
  · exact (c2_read_not_found_mapping (fun _ => BackendFile.failure ("permission denied"))
      (fun _ => BackendFile.absent) PNG_DEFAULT_PROFILE [] ("out")
      ⟨5, 3, 7, 256, 256, ⟨1, 0, 0, 0, 1, 0⟩, ("EPSG:4326")⟩
      ("permission denied")).2.1 rfl (by decide)
  · exact (c2_read_not_found_mapping (fun _ => BackendFile.absent)
      (fun _ => BackendFile.absent) PNG_DEFAULT_PROFILE [] ("out")
      ⟨5, 3, 7, 256, 256, ⟨1, 0, 0, 0, 1, 0⟩, ("EPSG:4326")⟩ ("")).2.2.1 rfl

/-- C4: the best-zoom estimator computes the width/height-weighted average
ground resolution `avg_resolution` and, scanning zoom levels from 0 upward
(the source scans `range(0, 40)`), returns the zoom immediately before the
first zoom whose per-pixel size is ≤ that average resolution. -/
theorem c4_best_zoom_algorithm (pixel_x_size : Nat → ℚ) (x_dif y_dif : ℚ)
    (width height : Nat) (z : Nat) (hz : z < 40)
    (hle : pixel_x_size z ≤ avg_resolution x_dif y_dif width height)
    (hgt : ∀ y, y < z → avg_resolution x_dif y_dif width height < pixel_x_size y) :
    get_best_zoom_level pixel_x_size (avg_resolution x_dif y_dif width height)
      = some ((z : Int) - 1) := by
  rw [get_best_zoom_level, List.range_eq_range']
  exact best_zoom_loop_range' pixel_x_size _ 40 0 z (Nat.zero_le z) (by omega) hle
    (fun y _ hy => hgt y hy)

/-- Witness for C4: zoom 3 is the first zoom at or below the average
resolution 2, so the estimator answers 2. -/
theorem c4_best_zoom_algorithm_witness :
    get_best_zoom_level (fun zz => if zz < 3 then 10 else 1)
      (avg_resolution 2 2 1 1) = some 2 := by
  have havg : avg_resolution 2 2 1 1 = 2 := by norm_num [avg_resolution]
  have h := c4_best_zoom_algorithm (fun zz => if zz < 3 then 10 else 1) 2 2 1 1 3
    (by omega)
    (by rw [havg]; norm_num)
    (fun y hy => by
      show avg_resolution 2 2 1 1 < if y < 3 then 10 else 1
      rw [havg, if_pos hy]
      norm_num)
  rw [h]
  norm_num

/-- C5 counterexample: the scan starts at zoom 0, yet when zoom 0's pixel
size is already ≤ the average resolution the source returns `0 - 1 = -1`,
below the declared minimum scan bound 0. -/
theorem c5_best_zoom_below_zero :
    get_best_zoom_level (fun _ => 1) (avg_resolution 4 4 1 1) = some (-1) ∧
    (-1 : Int) < 0 := by
  have havg : avg_resolution 4 4 1 1 = 4 := by norm_num [avg_resolution]
  constructor
  · rw [get_best_zoom_level, List.range_eq_range']
    have h := best_zoom_loop_range' (fun _ => 1) (avg_resolution 4 4 1 1) 40 0 0
      le_rfl (by omega) (by rw [havg]; norm_num) (fun y hy1 hy2 => by omega)
    rw [h]
    norm_num
  · norm_num

/-- C5 amended: any value the estimator returns is at least `-1` (the scan
start minus one), and it is ≥ 0 whenever zoom 0's pixel size exceeds the
average resolution. -/
theorem c5_best_zoom_lower_bound_amended (pixel_x_size : Nat → ℚ) (avg : ℚ)
    (r : Int) (h : get_best_zoom_level pixel_x_size avg = some r) :
    -1 ≤ r ∧ (avg < pixel_x_size 0 → 0 ≤ r) := by
  rw [get_best_zoom_level] at h
  obtain ⟨z, _, hr, hle⟩ := best_zoom_loop_mem pixel_x_size avg _ r h
  constructor
  · omega
  · intro h0
    have hz0 : z ≠ 0 := by
      intro hzz
      subst hzz
      exact absurd hle (not_le_of_lt h0)
    omega

/-- Witness for C5's amended bound at a concrete pixel-size function. -/
theorem c5_best_zoom_lower_bound_amended_witness :
    (-1 : Int) ≤ 0 ∧ ((2 : ℚ) < 10 → (0 : Int) ≤ 0) := by
  have hloop : get_best_zoom_level (fun zz => if zz = 0 then (10 : ℚ) else 1) 2
      = some 0 := by
    rw [get_best_zoom_level, List.range_eq_range']
    have h := best_zoom_loop_range' (fun zz => if zz = 0 then (10 : ℚ) else 1) 2
      40 0 1 (by omega) (by omega) (by norm_num)
      (fun y hy1 hy2 => by
        have hy0 : y = 0 := by omega
        subst hy0
        norm_num)
    rw [h]
    norm_num
  exact c5_best_zoom_lower_bound_amended
    (fun zz => if zz = 0 then (10 : ℚ) else 1) 2 0 hloop

/-- C6 counterexample: with 1 m source pixels, zooms 0–11 coarser than 1 m,
zoom 12 at 0.95 m and zoom 13 at 0.45 m, the estimator does NOT return 12. -/
theorem c6_best_zoom_scenario_not_12 :
    get_best_zoom_level
      (fun z => if z ≤ 11 then 2 else if z = 12 then (19 : ℚ)/20 else (9 : ℚ)/20) 1
      ≠ some 12 := by
  rw [get_best_zoom_level, List.range_eq_range']
  have h12 := best_zoom_loop_range'
    (fun z => if z ≤ 11 then 2 else if z = 12 then (19 : ℚ)/20 else (9 : ℚ)/20) 1
    40 0 12 (by omega) (by omega) (by norm_num)
    (fun y hy1 hy2 => by
      show (1 : ℚ) < if y ≤ 11 then 2 else if y = 12 then (19 : ℚ)/20 else (9 : ℚ)/20
      rw [if_pos (show y ≤ 11 by omega)]
      norm_num)
  rw [h12]
  norm_num

/-- C6 amended: in that scenario the estimator returns 11, the zoom
immediately before the first zoom (12) whose pixel size is ≤ the 1 m average
resolution. -/
theorem c6_best_zoom_scenario_returns_11 :
    get_best_zoom_level
      (fun z => if z ≤ 11 then 2 else if z = 12 then (19 : ℚ)/20 else (9 : ℚ)/20) 1
      = some 11 := by
  rw [get_best_zoom_level, List.range_eq_range']
  have h12 := best_zoom_loop_range'
    (fun z => if z ≤ 11 then 2 else if z = 12 then (19 : ℚ)/20 else (9 : ℚ)/20) 1
    40 0 12 (by omega) (by omega) (by norm_num)
    (fun y hy1 hy2 => by
      show (1 : ℚ) < if y ≤ 11 then 2 else if y = 12 then (19 : ℚ)/20 else (9 : ℚ)/20
      rw [if_pos (show y ≤ 11 by omega)]
      norm_num)
  rw [h12]
  norm_num

/-- C9: any exception raised while obtaining or rendering a web tile is
answered as HTTP 500 when the debug flag is unset, and re-raised unchanged to
the caller when the debug flag is set. -/
theorem c9_tile_response_error_policy {α : Type} (raw : Except String α)
    (for_web : α → Except String (WebPayload × String)) (e : String)
    (h : tile_render raw for_web = Except.error e) :
    tile_response true raw for_web = Except.error e ∧
    tile_response false raw for_web = Except.ok TileHttp.serverError := by
  constructor <;> simp [tile_response, h]

/-- Witness for C9 at a concrete failing render. -/
theorem c9_tile_response_error_policy_witness :
    tile_response true (Except.error ("boom") : Except String (List Nat))
      (fun _ => Except.ok (WebPayload.other, ("application/json")))
      = Except.error ("boom") ∧
    tile_response false (Except.error ("boom") : Except String (List Nat))
      (fun _ => Except.ok (WebPayload.other, ("application/json")))
      = Except.ok TileHttp.serverError :=
  c9_tile_response_error_policy (Except.error ("boom"))
    (fun _ => Except.ok (WebPayload.other, ("application/json"))) ("boom") rfl

/-- C1 counterexample: two configurations whose records differ only in a
driver-specific parameter (`bands`: 4 vs 3, same pyramid, same format name)
produce distinct records `R1 ≠ R2`, yet opening the location established with
`R1` under the `R2` configuration succeeds silently — the comparison does not
cover driver-specific params beyond the format name. -/
theorem c1_metadata_driver_params_not_compared :
    params_to_dump
      [(("path"), Value.vStr ("out")),
       (("type"), Value.vGrid (TilePyramid_grid ("geodetic"))),
       (("format"), Value.vStr ("PNG")), (("bands"), Value.vNat 4)]
      = some
        { pyramid :=
            { grid := TilePyramid_grid ("geodetic")
              metatiling := Value.vNat 1
              pixelbuffer := Value.vNat 0 }
          driver := [(("format"), Value.vStr ("PNG")), (("bands"), Value.vNat 4)] } ∧
    params_to_dump
      [(("path"), Value.vStr ("out")),
       (("type"), Value.vGrid (TilePyramid_grid ("geodetic"))),
       (("format"), Value.vStr ("PNG")), (("bands"), Value.vNat 3)]
      = some
        { pyramid :=
            { grid := TilePyramid_grid ("geodetic")
              metatiling := Value.vNat 1
              pixelbuffer := Value.vNat 0 }
          driver := [(("format"), Value.vStr ("PNG")), (("bands"), Value.vNat 3)] } ∧
    ({ pyramid :=
        { grid := TilePyramid_grid ("geodetic")
          metatiling := Value.vNat 1
          pixelbuffer := Value.vNat 0 }
       driver := [(("format"), Value.vStr ("PNG")), (("bands"), Value.vNat 4)] }
      : OutMetadata) ≠
    { pyramid :=
        { grid := TilePyramid_grid ("geodetic")
          metatiling := Value.vNat 1
          pixelbuffer := Value.vNat 0 }
      driver := [(("format"), Value.vStr ("PNG")), (("bands"), Value.vNat 3)] } ∧
    write_output_metadata
      (some
        { pyramid :=
            { grid := TilePyramid_grid ("geodetic")
              metatiling := Value.vNat 1
              pixelbuffer := Value.vNat 0 }
          driver := [(("format"), Value.vStr ("PNG")), (("bands"), Value.vNat 4)] })
      [(("path"), Value.vStr ("out")),
       (("type"), Value.vGrid (TilePyramid_grid ("geodetic"))),
       (("format"), Value.vStr ("PNG")), (("bands"), Value.vNat 3)]
      = Except.ok
        (some
          { pyramid :=
              { grid := TilePyramid_grid ("geodetic")
                metatiling := Value.vNat 1
                pixelbuffer := Value.vNat 0 }
            driver := [(("format"), Value.vStr ("PNG")), (("bands"), Value.vNat 4)] }) := by
  refine ⟨by decide, by decide, by decide, by decide⟩

/-- C1 amended: once an output location is established with record `R1`,
re-opening compares only the `pyramid` section (grid type/shape/bounds,
metatiling, pixelbuffer) and the driver-format name: a mismatch in either
fails with a configuration-conflict error, agreement on both succeeds
silently without modifying the stored record, and differences confined to
other driver-specific params are not detected. -/
theorem c1_metadata_conflict_amended (existing cur : OutMetadata)
    (params : Dict Value)
    (hpath : (dlookup params ("path")).isSome = true)
    (hcur : params_to_dump params = some cur) :
    (existing.pyramid = cur.pyramid →
      (∃ f, dlookup existing.driver ("format") = some f ∧
        dlookup cur.driver ("format") = some f) →
      write_output_metadata (some existing) params = Except.ok (some existing)) ∧
    (existing.pyramid ≠ cur.pyramid →
      ∃ e, write_output_metadata (some existing) params = Except.error e) ∧
    (∀ f g, dlookup existing.driver ("format") = some f →
      dlookup cur.driver ("format") = some g → f ≠ g →
      ∃ e, write_output_metadata (some existing) params = Except.error e) ∧
    (∀ st, write_output_metadata (some existing) params = Except.ok st →
      st = some existing) := by
  rw [write_output_metadata]
  simp only [hpath, if_true, hcur]
  refine ⟨?_, ?_, ?_, ?_⟩
  · rintro hpy ⟨f, hef, hcf⟩
    simp [hpy, hef, hcf]
  · intro hpy
    exact ⟨("MapcheteConfigError: process output definition differs from existing output"),
      by simp [hpy]⟩
  · intro f g hef hcf hne
    by_cases hpy : existing.pyramid = cur.pyramid
    · exact ⟨("MapcheteConfigError: process output definition differs from existing output"),
        by simp [hpy, hef, hcf, hne]⟩
    · exact ⟨("MapcheteConfigError: process output definition differs from existing output"),
        by simp [hpy]⟩
  · intro st hst
    by_cases hpy : existing.pyramid = cur.pyramid
    · simp only [hpy, ne_eq, not_true_eq_false, if_false] at hst
      cases hef : dlookup existing.driver ("format") with
      | none => rw [hef] at hst; cases hcf : dlookup cur.driver ("format") with
        | none => rw [hcf] at hst; simp at hst
        | some g => rw [hcf] at hst; simp at hst
      | some f => rw [hef] at hst; cases hcf : dlookup cur.driver ("format") with
        | none => rw [hcf] at hst; simp at hst
        | some g =>
            rw [hcf] at hst
            by_cases hfg : f = g
            · simp [hfg] at hst; exact hst.symm
            · simp [hfg] at hst
    · simp [hpy] at hst

/-- Witness for C1's amended protocol: re-opening with the exact same
configuration succeeds silently and leaves the record unchanged. -/
theorem c1_metadata_conflict_amended_witness :
    write_output_metadata
      (some
        { pyramid :=
            { grid := TilePyramid_grid ("geodetic")
              metatiling := Value.vNat 1
              pixelbuffer := Value.vNat 0 }
          driver := [(("format"), Value.vStr ("PNG")), (("bands"), Value.vNat 4)] })
      [(("path"), Value.vStr ("out")),
       (("type"), Value.vGrid (TilePyramid_grid ("geodetic"))),
       (("format"), Value.vStr ("PNG")), (("bands"), Value.vNat 4)]
      = Except.ok
        (some
          { pyramid :=
              { grid := TilePyramid_grid ("geodetic")
                metatiling := Value.vNat 1
                pixelbuffer := Value.vNat 0 }
            driver := [(("format"), Value.vStr ("PNG")), (("bands"), Value.vNat 4)] }) := by
  have h := c1_metadata_conflict_amended
    { pyramid :=
        { grid := TilePyramid_grid ("geodetic")
          metatiling := Value.vNat 1
          pixelbuffer := Value.vNat 0 }
      driver := [(("format"), Value.vStr ("PNG")), (("bands"), Value.vNat 4)] }
    { pyramid :=
        { grid := TilePyramid_grid ("geodetic")
          metatiling := Value.vNat 1
          pixelbuffer := Value.vNat 0 }
      driver := [(("format"), Value.vStr ("PNG")), (("bands"), Value.vNat 4)] }
    [(("path"), Value.vStr ("out")),
     (("type"), Value.vGrid (TilePyramid_grid ("geodetic"))),
     (("format"), Value.vStr ("PNG")), (("bands"), Value.vNat 4)]
    (by decide) (by decide)
  exact h.1 rfl ⟨Value.vStr ("PNG"), by decide, by decide⟩

/-- C3: the PNG driver's array preparation maps 1 band to an RGBA stack whose
R, G, B all equal band 1 and whose alpha plane is 0 exactly where band 1
equals the nodata value and 255 elsewhere; 2 bands to gray replicated into
R,G,B plus band 2 as explicit alpha; 3 bands to R,G,B plus alpha from band 1
versus nodata; 4 bands to a pass-through; any other band count (0 or ≥ 5) to
an encoding error. -/
theorem c3_png_band_composition (nodata : Int) (b0 b1 b2 b3 : MaskedBand) :
    (png_prepare_array_for_png nodata [b0] = Except.ok
      [planeOf 0 b0, planeOf 0 b0, planeOf 0 b0, alphaOf nodata (planeOf 0 b0)]) ∧
    (png_prepare_array_for_png nodata [b0, b1] = Except.ok
      [planeOf 0 b0, planeOf 0 b0, planeOf 0 b0, planeOf 0 b1]) ∧
    (png_prepare_array_for_png nodata [b0, b1, b2] = Except.ok
      [planeOf 0 b0, planeOf 0 b1, planeOf 0 b2, alphaOf nodata (planeOf 0 b0)]) ∧
    (png_prepare_array_for_png nodata [b0, b1, b2, b3] = Except.ok
      [planeOf 0 b0, planeOf 0 b1, planeOf 0 b2, planeOf 0 b3]) ∧
    (∀ p : List (List Int), ∀ i j : Nat, ∀ v : Int,
      p[i]?.bind (fun row => row[j]?) = some v →
      (alphaOf nodata p)[i]?.bind (fun row => row[j]?)
        = some (if v = nodata then 0 else 255)) ∧
    (∀ data : List MaskedBand, data.length = 0 ∨ 5 ≤ data.length →
      ∃ e, png_prepare_array_for_png nodata data = Except.error e) := by
  refine ⟨rfl, rfl, rfl, rfl, ?_, ?_⟩
  · intro p i j v h
    cases hp : p[i]? with
    | none => rw [hp] at h; simp at h
    | some row =>
        rw [hp] at h
        simp only [Option.some_bind] at h
        have halpha : (alphaOf nodata p)[i]?
            = some (row.map (fun w => if w = nodata then 0 else 255)) := by
          simp [alphaOf, List.getElem?_map, hp]
        rw [halpha]
        simp [List.getElem?_map, h]
  · intro data hlen
    rcases data with _ | ⟨x0, _ | ⟨x1, _ | ⟨x2, _ | ⟨x3, _ | ⟨x4, rest⟩⟩⟩⟩⟩
    · exact ⟨_, rfl⟩
    · simp at hlen
    · simp at hlen
    · simp at hlen
    · simp at hlen
    · exact ⟨_, rfl⟩

/-- Witness for C3: a 1-band input with one nodata (0) and one valid pixel
becomes an RGBA stack with alpha 0 and 255 respectively, and a 5-band input
fails with an encoding error. -/
theorem c3_png_band_composition_witness :
    png_prepare_array_for_png 0 [⟨[[0, 5]], [[false, false]]⟩]
      = Except.ok [[[0, 5]], [[0, 5]], [[0, 5]], [[0, 255]]] ∧
    (∃ e, png_prepare_array_for_png 0
      [⟨[[1]], [[false]]⟩, ⟨[[1]], [[false]]⟩, ⟨[[1]], [[false]]⟩,
       ⟨[[1]], [[false]]⟩, ⟨[[1]], [[false]]⟩] = Except.error e) := by
  have h := c3_png_band_composition 0 ⟨[[0, 5]], [[false, false]]⟩
    ⟨[[1]], [[false]]⟩ ⟨[[1]], [[false]]⟩ ⟨[[1]], [[false]]⟩
  exact ⟨h.1.trans (by decide), h.2.2.2.2.2 _ (by decide)⟩

/-- C7 counterexample: with a nonzero nodata value (7) the PNG driver's
`write` is NOT a no-op on an all-masked payload — the derived alpha plane is
0 ≠ nodata, so the written mask is not all-`True` and a storage write is
performed. -/
theorem c7_png_empty_write_nonzero_nodata_writes :
    bandAllMasked ⟨[[3]], [[true]]⟩ = true ∧
    png_write (fun md _ => md) [] 7 ("out")
      [⟨0, 0, 0, 1, 1, ⟨0, 0, 0, 0, 0, 0⟩, ("EPSG:4326")⟩]
      [⟨[[3]], [[true]]⟩] ≠ Except.ok [] := by
  exact ⟨by decide, by decide⟩

/-- C7 amended: `write` with an empty payload is a storage no-op for the
GeoJSON vector driver (`None` or an empty feature list returns before
touching the store, so a subsequent read of the untouched absent tile yields
`empty(tile) = []`), and for the PNG raster driver when its nodata value is 0
(the default): an all-masked payload of 1–4 bands skips the write; with a
nonzero nodata value the no-op is not guaranteed. -/
theorem c7_empty_write_noop_amended
    (store : GJStore) (pstore : PNGStore) (base : String)
    (intersecting : List BufferedTile)
    (clip : List Feature → BufferedTile → List Feature)
    (wrw : List MaskedBand → BufferedTile → List MaskedBand)
    (bg : String → BackendFile (List Feature)) (t : BufferedTile)
    (data : List MaskedBand) :
    gj_write store base intersecting clip none = Except.ok store ∧
    gj_write store base intersecting clip (some []) = Except.ok store ∧
    (bg (gj_get_path base t) = BackendFile.absent →
      gj_read bg base t = Except.ok gj_empty) ∧
    (1 ≤ data.length → data.length ≤ 4 →
      (∀ b ∈ data, bandAllMasked b = true) →
      png_write wrw pstore 0 base intersecting data = Except.ok pstore) := by
  refine ⟨rfl, rfl, ?_, ?_⟩
  · intro h
    simp [gj_read, backendOpen, h, isNotFoundMsg_absent]
  · intro h1 h4 hmask
    rcases data with _ | ⟨b0, data⟩
    · simp at h1
    rcases data with _ | ⟨b1, data⟩
    · have hz : AllZero (planeOf 0 b0) :=
        allZero_planeOf b0 (hmask b0 (by simp))
      have ha : AllZero (alphaOf 0 (planeOf 0 b0)) := allZero_alphaOf _ hz
      simp only [png_write, png_prepare_array_for_png, prepare_array_u8,
        List.map_cons, List.map_nil]
      rw [if_pos]
      simp [maskAllStack, bandAllMasked, maskRow_of_allZero _ hz,
        maskRow_of_allZero _ ha]
    rcases data with _ | ⟨b2, data⟩
    · have hz0 : AllZero (planeOf 0 b0) :=
        allZero_planeOf b0 (hmask b0 (by simp))
      have hz1 : AllZero (planeOf 0 b1) :=
        allZero_planeOf b1 (hmask b1 (by simp))
      simp only [png_write, png_prepare_array_for_png, prepare_array_u8,
        List.map_cons, List.map_nil]
      rw [if_pos]
      simp [maskAllStack, bandAllMasked, maskRow_of_allZero _ hz0,
        maskRow_of_allZero _ hz1]
    rcases data with _ | ⟨b3, data⟩
    · have hz0 : AllZero (planeOf 0 b0) :=
        allZero_planeOf b0 (hmask b0 (by simp))
      have hz1 : AllZero (planeOf 0 b1) :=
        allZero_planeOf b1 (hmask b1 (by simp))
      have hz2 : AllZero (planeOf 0 b2) :=
        allZero_planeOf b2 (hmask b2 (by simp))
      have ha : AllZero (alphaOf 0 (planeOf 0 b0)) := allZero_alphaOf _ hz0
      simp only [png_write, png_prepare_array_for_png, prepare_array_u8,
        List.map_cons, List.map_nil]
      rw [if_pos]
      simp [maskAllStack, bandAllMasked, maskRow_of_allZero _ hz0,
        maskRow_of_allZero _ hz1, maskRow_of_allZero _ hz2,
        maskRow_of_allZero _ ha]
    rcases data with _ | ⟨b4, data⟩
    · have hz0 : AllZero (planeOf 0 b0) :=
        allZero_planeOf b0 (hmask b0 (by simp))
      have hz1 : AllZero (planeOf 0 b1) :=
        allZero_planeOf b1 (hmask b1 (by simp))
      have hz2 : AllZero (planeOf 0 b2) :=
        allZero_planeOf b2 (hmask b2 (by simp))
      have hz3 : AllZero (planeOf 0 b3) :=
        allZero_planeOf b3 (hmask b3 (by simp))
      simp only [png_write, png_prepare_array_for_png, prepare_array_u8,
        List.map_cons, List.map_nil]
      rw [if_pos]
      simp [maskAllStack, bandAllMasked, maskRow_of_allZero _ hz0,
        maskRow_of_allZero _ hz1, maskRow_of_allZero _ hz2,
        maskRow_of_allZero _ hz3]
    · simp at h4

/-- Witness for C7's amended no-op at concrete stores, tiles and payloads. -/
theorem c7_empty_write_noop_amended_witness :
    gj_write [] ("out")
      [⟨0, 0, 0, 1, 1, ⟨0, 0, 0, 0, 0, 0⟩, ("EPSG:4326")⟩]
      (fun d _ => d) none = Except.ok [] ∧
    gj_write [] ("out")
      [⟨0, 0, 0, 1, 1, ⟨0, 0, 0, 0, 0, 0⟩, ("EPSG:4326")⟩]
      (fun d _ => d) (some []) = Except.ok [] ∧
    gj_read (fun _ => BackendFile.absent) ("out")
      ⟨0, 0, 0, 1, 1, ⟨0, 0, 0, 0, 0, 0⟩, ("EPSG:4326")⟩ = Except.ok gj_empty ∧
    png_write (fun md _ => md) [] 0 ("out")
      [⟨0, 0, 0, 1, 1, ⟨0, 0, 0, 0, 0, 0⟩, ("EPSG:4326")⟩]
      [⟨[[5]], [[true]]⟩] = Except.ok [] := by
  have h := c7_empty_write_noop_amended [] [] ("out")
    [⟨0, 0, 0, 1, 1, ⟨0, 0, 0, 0, 0, 0⟩, ("EPSG:4326")⟩]
    (fun d _ => d) (fun md _ => md) (fun _ => BackendFile.absent)
    ⟨0, 0, 0, 1, 1, ⟨0, 0, 0, 0, 0, 0⟩, ("EPSG:4326")⟩
    [⟨[[5]], [[true]]⟩]
  exact ⟨h.1, h.2.1, h.2.2.1 rfl, h.2.2.2 (by decide) (by decide) (by decide)⟩

/-- C8: the hillshade driver inverts the input (`255 - value`) before
persisting, stores a 2-band gray+alpha layout by default or a 4-band layout
when `old_band_num` is set, and on read selects the band index matching the
chosen layout (band 4 for the legacy layout, band 2 otherwise), recovering
exactly the inverted plane (masked at 0). -/
theorem c8_hillshade_layout (old_band_num : Bool) (data : List (List Int))
    (base : String) (t : BufferedTile)
    (bk : String → BackendFile (List (List (List Int))))
    (hrange : ∀ row ∈ data, ∀ v ∈ row, 0 ≤ v ∧ v ≤ 255)
    (hbk : bk (png_get_path base t)
      = BackendFile.found (planesOf (hs_prepare_array old_band_num data))) :
    (hs_prepare_array old_band_num data).length = (if old_band_num then 4 else 2) ∧
    (planesOf (hs_prepare_array old_band_num data)).getLast?
      = some (data.map (List.map (fun v => 255 - v))) ∧
    hs_read bk old_band_num base t = Except.ok
      { data := data.map (List.map (fun v => 255 - v))
        mask := (data.map (List.map (fun v => 255 - v))).map
          (List.map (fun v => decide (v = 0))) } := by
  have hinv : data.map (List.map (fun v => (255 - v).emod 256))
      = data.map (List.map (fun v => 255 - v)) := by
    apply List.map_congr_left
    intro row hrow
    apply List.map_congr_left
    intro v hv
    have h := hrange row hrow v hv
    exact Int.emod_eq_of_lt (by omega) (by omega)
  cases old_band_num with
  | false =>
      refine ⟨?_, ?_, ?_⟩
      · simp [hs_prepare_array]
      · simp [hs_prepare_array, planesOf, hinv, List.getLast?]
      · simp [hs_read, backendOpen, hbk, hs_prepare_array, planesOf, hinv]
  | true =>
      refine ⟨?_, ?_, ?_⟩
      · simp [hs_prepare_array]
      · simp [hs_prepare_array, planesOf, hinv, List.getLast?]
      · simp [hs_read, backendOpen, hbk, hs_prepare_array, planesOf, hinv]

/-- Witness for C8: a concrete 2×2 hillshade tile in the default 2-band
layout; reading band 2 recovers the inverted values, masked where they are
0 (i.e. where the input was 255). -/
theorem c8_hillshade_layout_witness :
    hs_read
      (storeBackend
        [((png_get_path ("out") ⟨4, 1, 2, 2, 2, ⟨1, 0, 0, 0, 1, 0⟩, ("EPSG:4326")⟩),
          planesOf (hs_prepare_array false [[10, 255], [0, 3]]))])
      false ("out") ⟨4, 1, 2, 2, 2, ⟨1, 0, 0, 0, 1, 0⟩, ("EPSG:4326")⟩
      = Except.ok
        { data := [[245, 0], [255, 252]]
          mask := [[false, true], [false, false]] } := by
  have h := c8_hillshade_layout false [[10, 255], [0, 3]] ("out")
    ⟨4, 1, 2, 2, 2, ⟨1, 0, 0, 0, 1, 0⟩, ("EPSG:4326")⟩
    (storeBackend
      [((png_get_path ("out") ⟨4, 1, 2, 2, 2, ⟨1, 0, 0, 0, 1, 0⟩, ("EPSG:4326")⟩),
        planesOf (hs_prepare_array false [[10, 255], [0, 3]]))])
    (by decide) (by decide)
  exact h.2.2.trans (by decide)

/-- C10: the PNG driver's `profile(tile)` returns the module-level
`PNG_DEFAULT_PROFILE` dictionary itself (the returned dictionary and the new
module state are one and the same) and mutates it in place: after
`profile(t)` the shared dictionary holds `t`'s width, height, affine and crs
and the `count` override from `output_params["count"]`, and a later
`profile()` call with no tile (and no `count` in its params) still reads all
of them back from the shared default. -/
theorem c10_png_profile_global_mutation (glob output_params : Dict Value)
    (t : BufferedTile) (c : Value)
    (hc : dlookup output_params ("count") = some c) :
    ((png_profile glob (some t) output_params).fst
      = (png_profile glob (some t) output_params).snd) ∧
    dlookup (png_profile glob (some t) output_params).snd ("width")
      = some (Value.vNat t.width) ∧
    dlookup (png_profile glob (some t) output_params).snd ("height")
      = some (Value.vNat t.height) ∧
    dlookup (png_profile glob (some t) output_params).snd ("affine")
      = some (Value.vAff t.affine) ∧
    dlookup (png_profile glob (some t) output_params).snd ("crs")
      = some (Value.vStr t.crs) ∧
    dlookup (png_profile glob (some t) output_params).snd ("count") = some c ∧
    dlookup (png_profile (png_profile glob (some t) output_params).snd none []).fst
      ("width") = some (Value.vNat t.width) ∧
    dlookup (png_profile (png_profile glob (some t) output_params).snd none []).fst
      ("height") = some (Value.vNat t.height) ∧
    dlookup (png_profile (png_profile glob (some t) output_params).snd none []).fst
      ("affine") = some (Value.vAff t.affine) ∧
    dlookup (png_profile (png_profile glob (some t) output_params).snd none []).fst
      ("crs") = some (Value.vStr t.crs) ∧
    dlookup (png_profile (png_profile glob (some t) output_params).snd none []).fst
      ("count") = some c := by
  have hg1 : (png_profile glob (some t) output_params).snd
      = dset (dset (dset (dset (dset (dpop glob ("transform")) ("width")
          (Value.vNat t.width)) ("height") (Value.vNat t.height)) ("affine")
          (Value.vAff t.affine)) ("crs") (Value.vStr t.crs)) ("count") c := by
    simp [png_profile, hc]
  have hw : dlookup (png_profile glob (some t) output_params).snd ("width")
      = some (Value.vNat t.width) := by
    rw [hg1, dlookup_dset_ne _ _ _ _ (by decide), dlookup_dset_ne _ _ _ _ (by decide),
      dlookup_dset_ne _ _ _ _ (by decide), dlookup_dset_ne _ _ _ _ (by decide),
      dlookup_dset_self]
  have hh : dlookup (png_profile glob (some t) output_params).snd ("height")
      = some (Value.vNat t.height) := by
    rw [hg1, dlookup_dset_ne _ _ _ _ (by decide), dlookup_dset_ne _ _ _ _ (by decide),
      dlookup_dset_ne _ _ _ _ (by decide), dlookup_dset_self]
  have haff : dlookup (png_profile glob (some t) output_params).snd ("affine")
      = some (Value.vAff t.affine) := by
    rw [hg1, dlookup_dset_ne _ _ _ _ (by decide), dlookup_dset_ne _ _ _ _ (by decide),
      dlookup_dset_self]
  have hcrs : dlookup (png_profile glob (some t) output_params).snd ("crs")
      = some (Value.vStr t.crs) := by
    rw [hg1, dlookup_dset_ne _ _ _ _ (by decide), dlookup_dset_self]
  have hcnt : dlookup (png_profile glob (some t) output_params).snd ("count")
      = some c := by
    rw [hg1, dlookup_dset_self]
  have hg2 : (png_profile (png_profile glob (some t) output_params).snd none []).fst
      = dpop (png_profile glob (some t) output_params).snd ("transform") := by
    simp [png_profile, dlookup]
  refine ⟨rfl, hw, hh, haff, hcrs, hcnt, ?_, ?_, ?_, ?_, ?_⟩
  · rw [hg2, dlookup_dpop_ne _ _ _ (by decide), hw]
  · rw [hg2, dlookup_dpop_ne _ _ _ (by decide), hh]
  · rw [hg2, dlookup_dpop_ne _ _ _ (by decide), haff]
  · rw [hg2, dlookup_dpop_ne _ _ _ (by decide), hcrs]
  · rw [hg2, dlookup_dpop_ne _ _ _ (by decide), hcnt]

/-- Witness for C10 at the module's initial dictionary, a concrete tile and a
`count` override of 8: the override and the tile attributes persist into a
later no-tile call. -/
theorem c10_png_profile_global_mutation_witness :
    dlookup (png_profile PNG_DEFAULT_PROFILE
        (some ⟨2, 1, 1, 512, 512, ⟨1, 0, 0, 0, 1, 0⟩, ("EPSG:3857")⟩)
        [(("count"), Value.vNat 8)]).snd ("width") = some (Value.vNat 512) ∧
    dlookup (png_profile (png_profile PNG_DEFAULT_PROFILE
        (some ⟨2, 1, 1, 512, 512, ⟨1, 0, 0, 0, 1, 0⟩, ("EPSG:3857")⟩)
        [(("count"), Value.vNat 8)]).snd none []).fst ("count")
      = some (Value.vNat 8) := by
  have h := c10_png_profile_global_mutation PNG_DEFAULT_PROFILE
    [(("count"), Value.vNat 8)]
    ⟨2, 1, 1, 512, 512, ⟨1, 0, 0, 0, 1, 0⟩, ("EPSG:3857")⟩
    (Value.vNat 8) (by decide)
  exact ⟨h.2.1, h.2.2.2.2.2.2.2.2.2.2⟩

end Mapchete
